import Mathlib

/-
Shallow embedding of `streamparse/cli/common.py` (the CLI option-composition
and configuration-resolution layer of streamparse).

Modelling conventions:
* Python values that occur in this code are modelled by the inductive type
  `Value` (None, bool, int, str, list, dict).  Floats do not occur in the
  examined code paths and are not modelled.
* Python dictionaries are modelled as association lists `PyDict`.  Dict keys
  must be hashable in Python, so lists and dicts never occur as keys; keys are
  therefore drawn from the flat type `Key`.  Lookup (`dget`) returns the value
  of the last binding of a key, and insertion (`dset`) removes all previous
  bindings, so an association list always denotes the same mapping a Python
  dict would.  Iteration order is not observed by any property below.
* `isinstance(x, int)` is true for Python bools as well (bool is a subclass
  of int); `isInstInt` mirrors this.
* Fallible Python code (KeyError / TypeError / AttributeError / ValueError)
  is modelled with `Except PyErr`.
* `get_storm_workers` lives in `streamparse.util` (outside this module) and is
  treated as an opaque parameter `gsw`, as is the YAML parser from `ruamel`
  used by `_StoreDictAction.__call__` (parameter `yamlLoad`; both branches of
  the `yaml.version_info` check YAML-parse the value string).
-/

set_option autoImplicit false

namespace Streamparse

/-- Hashable Python scalars, the possible dict keys in this code. -/
inductive Key where
  | none : Key
  | bool : Bool → Key
  | int : Int → Key
  | str : String → Key
  deriving DecidableEq, Repr

/-- Python values occurring in the modelled code. -/
inductive Value where
  | none : Value
  | bool : Bool → Value
  | int : Int → Value
  | str : String → Value
  | list : List Value → Value
  | dict : List (Key × Value) → Value

/-- Python dictionaries as association lists (see header conventions). -/
abbrev PyDict := List (Key × Value)

/-- Errors raised by the modelled code. -/
inductive PyErr where
  | keyError (k : String) : PyErr
  | typeError : PyErr
  | attributeError : PyErr
  | valueError : PyErr
  deriving DecidableEq, Repr

/-- Dictionary lookup: value of the last binding of `k`, if any. -/
def dget : PyDict → Key → Option Value
  | [], _ => Option.none
  | (k', v) :: t, k =>
    match dget t k with
    | some w => some w
    | Option.none => if k' = k then some v else Option.none

/-- Dictionary assignment `d[k] = v`: drop old bindings of `k`, append the new one. -/
def dset : PyDict → Key → Value → PyDict
  | [], k, v => [(k, v)]
  | (k', w) :: t, k, v => if k' = k then dset t k v else (k', w) :: dset t k v

/-- Python `d.get(k)`: `None` both for a missing key and for a stored `None`. -/
def pyget (d : PyDict) (k : Key) : Value :=
  (dget d k).getD Value.none

/-- Python `d.get(k, default)`. -/
def pygetD (d : PyDict) (k : Key) (dflt : Value) : Value :=
  (dget d k).getD dflt

/-- Python `d1.update(d2)` (as a fresh dict). -/
def pyUpdate (d1 d2 : PyDict) : PyDict :=
  d2.foldl (fun acc p => dset acc p.1 p.2) d1

/-- Python truthiness of a value. -/
def truthy : Value → Bool
  | Value.none => false
  | Value.bool b => b
  | Value.int n => decide (n ≠ 0)
  | Value.str s => decide (s ≠ "")
  | Value.list xs => !xs.isEmpty
  | Value.dict xs => !xs.isEmpty

/-- Python `a or b`. -/
def pyOr (a b : Value) : Value :=
  if truthy a then a else b

/-- Python `x is None`. -/
def isNone : Value → Bool
  | Value.none => true
  | _ => false

/-- Python `isinstance(x, int)`; true for bools, since bool subclasses int. -/
def isInstInt : Value → Bool
  | Value.int _ => true
  | Value.bool _ => true
  | _ => false

/-- Python `isinstance(x, str)`. -/
def isInstStr : Value → Bool
  | Value.str _ => true
  | _ => false

/-- Coerce a value that must be a dict, failing with the given error otherwise
(`TypeError` for `dict.update`, `AttributeError` for `.get` on a non-dict). -/
def asDictE (e : PyErr) : Value → Except PyErr PyDict
  | Value.dict xs => Except.ok xs
  | _ => Except.error e

/-- Python `len` on the values it is applied to here. -/
def pyLen : Value → Except PyErr Nat
  | Value.str s => Except.ok s.length
  | Value.list xs => Except.ok xs.length
  | Value.dict xs => Except.ok xs.length
  | _ => Except.error PyErr.typeError

/-- `str.lower()` (ASCII, which covers the log levels involved). -/
def lowerStr (s : String) : String :=
  String.mk (s.data.map Char.toLower)

/-- Python `s.split(",")` on a list of characters. -/
def splitCommaCs : List Char → List (List Char)
  | [] => [[]]
  | c :: t =>
    match splitCommaCs t with
    | [] => [[c]]
    | h :: r => if c = ',' then [] :: h :: r else (c :: h) :: r

/-- Python `s.split(",")`. -/
def pySplitComma (s : String) : List String :=
  (splitCommaCs s.data).map String.mk

/-- `VIRTUALENV_OPTIONS` from `streamparse/cli/common.py`. -/
def VIRTUALENV_OPTIONS : List String :=
  ["install_virtualenv", "use_virtualenv", "virtualenv_flags",
   "virtualenv_root", "virtualenv_name"]

/-- The `use_virtualenv` block of `resolve_options`: derive
`topology.python.path` from `env_config["virtualenv_root"]` (KeyError when the
key is missing; the `"/".join` needs a string, TypeError otherwise). -/
def pythonPathStep (env_config : PyDict) (topology_name : String)
    (so : PyDict) : Except PyErr PyDict :=
  if truthy (pygetD env_config (Key.str "use_virtualenv") (Value.bool true)) then
    match dget env_config (Key.str "virtualenv_root") with
    | Option.none => Except.error (PyErr.keyError "virtualenv_root")
    | some (Value.str vr) =>
      Except.ok (dset so (Key.str "topology.python.path")
        (Value.str (vr ++ "/" ++ topology_name ++ "/bin/python")))
    | some _ => Except.error PyErr.typeError
  else Except.ok so

/-- The logging block of `resolve_options`: derive the `pystorm.log.*`
options from `env_config["log"]` / `env_config["log_path"]` /
`env_config["log_file"]`. -/
def logStep (env_config : PyDict) (so : PyDict) : Except PyErr PyDict :=
  match pygetD env_config (Key.str "log") (Value.dict []) with
  | Value.dict log_config =>
    let log_path := pyOr (pyget log_config (Key.str "path"))
      (pyget env_config (Key.str "log_path"))
    let log_file := pyOr (pyget log_config (Key.str "file"))
      (pyget env_config (Key.str "log_file"))
    let so := if truthy log_path then
      dset so (Key.str "pystorm.log.path") log_path else so
    let so := if truthy log_file then
      dset so (Key.str "pystorm.log.file") log_file else so
    let so := if isInstInt (pyget log_config (Key.str "max_bytes")) then
      dset so (Key.str "pystorm.log.max_bytes")
        (pyget log_config (Key.str "max_bytes")) else so
    let so := if isInstInt (pyget log_config (Key.str "backup_count")) then
      dset so (Key.str "pystorm.log.backup_count")
        (pyget log_config (Key.str "backup_count")) else so
    let so := match pyget log_config (Key.str "level") with
      | Value.str s => dset so (Key.str "pystorm.log.level") (Value.str (lowerStr s))
      | _ => so
    Except.ok so
  | _ => Except.error PyErr.attributeError

/-- The `VIRTUALENV_OPTIONS` loop of `resolve_options`. -/
def venvStep (env_config : PyDict) (so : PyDict) : PyDict :=
  VIRTUALENV_OPTIONS.foldl
    (fun acc name =>
      match dget env_config (Key.str name) with
      | some v => dset acc (Key.str name) v
      | Option.none => acc)
    so

/-- `storm_options["sudo_user"] = env_config.get("user", None)`. -/
def sudoUserStep (env_config : PyDict) (so : PyDict) : PyDict :=
  dset so (Key.str "sudo_user") (pyget env_config (Key.str "user"))

/-- `if storm_options.get("topology.debug", False): ... = "debug"`. -/
def debugStep (so : PyDict) : PyDict :=
  if truthy (pygetD so (Key.str "topology.debug") (Value.bool false)) then
    dset so (Key.str "pystorm.log.level") (Value.str "debug")
  else so

/-- The inner adjustment of `storm.workers.list` in the non-local branch:
replace a falsy value by the `get_storm_workers` result, split a string
value on commas. -/
def workersAdjust (gsw : PyDict → Value) (env_config : PyDict)
    (so : PyDict) : PyDict :=
  if !truthy (pyget so (Key.str "storm.workers.list")) then
    dset so (Key.str "storm.workers.list") (gsw env_config)
  else
    match pyget so (Key.str "storm.workers.list") with
    | Value.str s =>
      dset so (Key.str "storm.workers.list")
        (Value.list ((pySplitComma s).map Value.str))
    | _ => so

/-- The `storm.workers.list` / `num_storm_workers` block of
`resolve_options`. -/
def workersStep (gsw : PyDict → Value) (env_config : PyDict)
    (local_only : Bool) (so : PyDict) : Except PyErr (PyDict × Nat) :=
  if !local_only then
    let so := workersAdjust gsw env_config so
    match pyLen (pyget so (Key.str "storm.workers.list")) with
    | Except.ok n => Except.ok (so, n)
    | Except.error e => Except.error e
  else
    Except.ok (dset so (Key.str "storm.workers.list") (Value.list []), 1)

/-- `if storm_options.get("topology.acker.executors") is None: ...`. -/
def ackerDefaultStep (n : Nat) (so : PyDict) : PyDict :=
  if isNone (pyget so (Key.str "topology.acker.executors")) then
    dset so (Key.str "topology.acker.executors") (Value.int n)
  else so

/-- `if storm_options.get("topology.workers") is None: ...`. -/
def workersDefaultStep (n : Nat) (so : PyDict) : PyDict :=
  if isNone (pyget so (Key.str "topology.workers")) then
    dset so (Key.str "topology.workers") (Value.int n)
  else so

/-- `storm_options.setdefault("sudo_user", "root")`. -/
def sudoDefaultStep (so : PyDict) : PyDict :=
  if (dget so (Key.str "sudo_user")).isSome then so
  else dset so (Key.str "sudo_user") (Value.str "root")

/-- `resolve_options` from `streamparse/cli/common.py`.  `gsw` abstracts the
external `get_storm_workers`; `topology_class` enters only through its
`config` dict, passed as `topology_config`. -/
def resolve_options (gsw : PyDict → Value) (cli_options : Value)
    (env_config : PyDict) (topology_config : PyDict)
    (topology_name : String) (local_only : Bool) : Except PyErr PyDict :=
  match asDictE PyErr.typeError
      (pygetD env_config (Key.str "options") (Value.dict [])) with
  | Except.error e => Except.error e
  | Except.ok envOpts =>
    match pythonPathStep env_config topology_name (pyUpdate [] envOpts) with
    | Except.error e => Except.error e
    | Except.ok so =>
      match logStep env_config so with
      | Except.error e => Except.error e
      | Except.ok so =>
        let so := sudoUserStep env_config (venvStep env_config so)
        let so := pyUpdate so topology_config
        match asDictE PyErr.typeError
            (if truthy cli_options then cli_options else Value.dict []) with
        | Except.error e => Except.error e
        | Except.ok cliD =>
          let so := debugStep (pyUpdate so cliD)
          match workersStep gsw env_config local_only so with
          | Except.error e => Except.error e
          | Except.ok (so, n) =>
            Except.ok (sudoDefaultStep (workersDefaultStep n (ackerDefaultStep n so)))

/-- `option_alias(option)` applied to a value string. -/
def option_alias (option : String) (val : String) : String :=
  option ++ "=" ++ val

/-- Python `values.split("=", 1)` on a list of characters: split at the first
`=` only; `Option.none` when there is no `=`. -/
def splitEq1 : List Char → Option (List Char × List Char)
  | [] => Option.none
  | c :: t =>
    if c = '=' then some ([], t)
    else
      match splitEq1 t with
      | some (a, b) => some (c :: a, b)
      | Option.none => Option.none

/-- `_StoreDictAction.__call__`: start from the current `options` dict (or a
fresh one), split the argument on the first `=`, YAML-parse the value part and
store it under the key part.  Unpacking `values.split("=", 1)` raises
ValueError when there is no `=`. -/
def storeDictCall (yamlLoad : String → Value) (cur : Option PyDict)
    (values : String) : Except PyErr PyDict :=
  match splitEq1 values.data with
  | some (kcs, vcs) =>
    Except.ok (dset (cur.getD []) (Key.str (String.mk kcs))
      (yamlLoad (String.mk vcs)))
  | Option.none => Except.error PyErr.valueError

/-- Python `nargs == 0` (Python `==`, under which `False == 0`). -/
def pyEqZero : Value → Bool
  | Value.int n => decide (n = 0)
  | Value.bool b => !b
  | _ => false

/-- Python `nargs == "?"`. -/
def pyEqQuestion : Value → Bool
  | Value.str s => decide (s = "?")
  | _ => false

/-- The validation in `_StoreDictAction.__init__`.  The superclass
`argparse.Action.__init__` (standard library, outside this repository) only
assigns attributes and raises nothing, so construction succeeds whenever the
two explicit checks pass. -/
def storeDictInit (nargs const : Value) : Except PyErr Unit :=
  if pyEqZero nargs then Except.error PyErr.valueError
  else if !isNone const && !pyEqQuestion nargs then Except.error PyErr.valueError
  else Except.ok ()

/-- The three-tier precedence lookup described by the spec: CLI first, then
the topology config, then `env_config["options"]`.  This definition follows
the spec's words and is compared against `resolve_options`. -/
def specTieredLookup (envOpts topo cl : PyDict) (k : Key) : Option Value :=
  match dget cl k with
  | some v => some v
  | Option.none =>
    match dget topo k with
    | some v => some v
    | Option.none => dget envOpts k

/-- `specTieredLookup` with Python `.get` semantics (missing key gives None). -/
def specTieredPyget (envOpts topo cl : PyDict) (k : Key) : Value :=
  (specTieredLookup envOpts topo cl k).getD Value.none

/-- The keys that `resolve_options` itself writes while deriving defaults,
outside the three `update` calls. -/
def derivedKeys : List Key :=
  [Key.str "topology.python.path", Key.str "pystorm.log.path",
   Key.str "pystorm.log.file", Key.str "pystorm.log.max_bytes",
   Key.str "pystorm.log.backup_count", Key.str "pystorm.log.level",
   Key.str "install_virtualenv", Key.str "use_virtualenv",
   Key.str "virtualenv_flags", Key.str "virtualenv_root",
   Key.str "virtualenv_name", Key.str "sudo_user",
   Key.str "storm.workers.list", Key.str "topology.acker.executors",
   Key.str "topology.workers"]

/-- Is a key a Python string? -/
def Key.isStr : Key → Bool
  | Key.str _ => true
  | _ => false

/-- All keys of a dict are strings. -/
def allStrKeys (d : PyDict) : Bool :=
  d.all (fun p => p.1.isStr)

/-- The comma-splitting the `elif isinstance(..., str)` branch applies to a
string value of `storm.workers.list`. -/
def splitValue : Value → Value
  | Value.str s => Value.list ((pySplitComma s).map Value.str)
  | v => v

/-- The keys written by the stages of `resolve_options` that run before the
topology/CLI `update` calls (plus `pystorm.log.level`, also written by the
`topology.debug` override just after them). -/
def premergeWrittenKeys : List Key :=
  [Key.str "topology.python.path", Key.str "pystorm.log.path",
   Key.str "pystorm.log.file", Key.str "pystorm.log.max_bytes",
   Key.str "pystorm.log.backup_count", Key.str "pystorm.log.level",
   Key.str "install_virtualenv", Key.str "use_virtualenv",
   Key.str "virtualenv_flags", Key.str "virtualenv_root",
   Key.str "virtualenv_name", Key.str "sudo_user"]

/-! ### Basic association-list lemmas -/

theorem dget_nil (k : Key) : dget [] k = Option.none := rfl

theorem dget_cons (pk : Key) (pv : Value) (t : PyDict) (k : Key) :
    dget ((pk, pv) :: t) k =
      match dget t k with
      | some w => some w
      | Option.none => if pk = k then some pv else Option.none := rfl

theorem dset_cons (pk : Key) (pv : Value) (t : PyDict) (k : Key) (v : Value) :
    dset ((pk, pv) :: t) k v =
      if pk = k then dset t k v else (pk, pv) :: dset t k v := rfl

theorem pyUpdate_cons (d1 : PyDict) (pk : Key) (pv : Value) (t : PyDict) :
    pyUpdate d1 ((pk, pv) :: t) = pyUpdate (dset d1 pk pv) t := rfl

/-- Lookup after assignment: the assigned key reads the new value, all other
keys are untouched. -/
theorem dget_dset (d : PyDict) (k : Key) (v : Value) (k' : Key) :
    dget (dset d k v) k' = if k' = k then some v else dget d k' := by
  induction d with
  | nil =>
    by_cases h : k' = k
    · subst h; simp [dset, dget]
    · have h2 : ¬ k = k' := fun hh => h hh.symm
      simp [dset, dget, h, h2]
  | cons p t ih =>
    obtain ⟨pk, pv⟩ := p
    by_cases h : k' = k
    · subst h
      by_cases hpk : pk = k'
      · rw [dset_cons, if_pos hpk, ih]
        simp
      · rw [dset_cons, if_neg hpk, dget_cons, ih]
        simp
    · have h2 : ¬ k = k' := fun hh => h hh.symm
      by_cases hpk : pk = k
      · subst hpk
        rw [dset_cons, if_pos rfl, ih, dget_cons]
        cases hgt : dget t k' <;> simp [hgt, h, h2]
      · rw [dset_cons, if_neg hpk, dget_cons, ih, if_neg h, dget_cons]
        rw [if_neg h]

/-- Lookup after `update`: the second dict wins where it binds the key. -/
theorem dget_update (d1 d2 : PyDict) (k : Key) :
    dget (pyUpdate d1 d2) k =
      match dget d2 k with
      | some v => some v
      | Option.none => dget d1 k := by
  induction d2 generalizing d1 with
  | nil => simp [pyUpdate, dget]
  | cons p t ih =>
    obtain ⟨pk, pv⟩ := p
    rw [pyUpdate_cons, ih, dget_cons]
    cases hgt : dget t k
    · rw [dget_dset]
      by_cases h : pk = k
      · subst h; simp
      · have h2 : ¬ k = pk := fun hh => h hh.symm
        simp [h, h2]
    · simp

/-! ### Stage lemmas for `resolve_options` -/

theorem dget_pythonPathStep {env : PyDict} {name : String} {so so' : PyDict}
    (h : pythonPathStep env name so = Except.ok so') (k : Key)
    (hk : k ≠ Key.str "topology.python.path") :
    dget so' k = dget so k := by
  unfold pythonPathStep at h
  by_cases hu : truthy (pygetD env (Key.str "use_virtualenv") (Value.bool true))
  · rw [if_pos hu] at h
    cases hr : dget env (Key.str "virtualenv_root") with
    | none => rw [hr] at h; simp at h
    | some v =>
      rw [hr] at h
      cases v with
      | str vr =>
        simp only [Except.ok.injEq] at h
        subst h
        rw [dget_dset, if_neg hk]
      | none => simp at h
      | bool b => simp at h
      | int n => simp at h
      | list xs => simp at h
      | dict xs => simp at h
  · rw [if_neg hu] at h
    simp only [Except.ok.injEq] at h
    subst h
    rfl

theorem dget_logStep_ne {env so so' : PyDict}
    (h : logStep env so = Except.ok so') (k : Key)
    (h1 : k ≠ Key.str "pystorm.log.path") (h2 : k ≠ Key.str "pystorm.log.file")
    (h3 : k ≠ Key.str "pystorm.log.max_bytes")
    (h4 : k ≠ Key.str "pystorm.log.backup_count")
    (h5 : k ≠ Key.str "pystorm.log.level") :
    dget so' k = dget so k := by
  unfold logStep at h
  cases hlg : pygetD env (Key.str "log") (Value.dict []) <;> rw [hlg] at h
  case dict lg =>
    simp only [Except.ok.injEq] at h
    subst h
    (repeat' split) <;> simp [dget_dset, h1, h2, h3, h4, h5]
  all_goals simp at h

theorem dget_logStep_path {env so so' : PyDict} {lg : PyDict}
    (h : logStep env so = Except.ok so')
    (hlg : pygetD env (Key.str "log") (Value.dict []) = Value.dict lg) :
    dget so' (Key.str "pystorm.log.path") =
      if truthy (pyOr (pyget lg (Key.str "path")) (pyget env (Key.str "log_path")))
      then some (pyOr (pyget lg (Key.str "path")) (pyget env (Key.str "log_path")))
      else dget so (Key.str "pystorm.log.path") := by
  unfold logStep at h
  rw [hlg] at h
  simp only [Except.ok.injEq] at h
  subst h
  by_cases htp : truthy (pyOr (pyget lg (Key.str "path")) (pyget env (Key.str "log_path")))
  · rw [if_pos htp, if_pos htp]
    repeat' split
    all_goals simp [dget_dset]
  · rw [if_neg htp, if_neg htp]
    repeat' split
    all_goals simp [dget_dset]

theorem dget_logStep_file {env so so' : PyDict} {lg : PyDict}
    (h : logStep env so = Except.ok so')
    (hlg : pygetD env (Key.str "log") (Value.dict []) = Value.dict lg) :
    dget so' (Key.str "pystorm.log.file") =
      if truthy (pyOr (pyget lg (Key.str "file")) (pyget env (Key.str "log_file")))
      then some (pyOr (pyget lg (Key.str "file")) (pyget env (Key.str "log_file")))
      else dget so (Key.str "pystorm.log.file") := by
  unfold logStep at h
  rw [hlg] at h
  simp only [Except.ok.injEq] at h
  subst h
  by_cases htp : truthy (pyOr (pyget lg (Key.str "file")) (pyget env (Key.str "log_file")))
  · rw [if_pos htp, if_pos htp]
    repeat' split
    all_goals simp [dget_dset]
  · rw [if_neg htp, if_neg htp]
    repeat' split
    all_goals simp [dget_dset]

theorem dget_logStep_max_bytes {env so so' : PyDict} {lg : PyDict}
    (h : logStep env so = Except.ok so')
    (hlg : pygetD env (Key.str "log") (Value.dict []) = Value.dict lg) :
    dget so' (Key.str "pystorm.log.max_bytes") =
      if isInstInt (pyget lg (Key.str "max_bytes"))
      then some (pyget lg (Key.str "max_bytes"))
      else dget so (Key.str "pystorm.log.max_bytes") := by
  unfold logStep at h
  rw [hlg] at h
  simp only [Except.ok.injEq] at h
  subst h
  by_cases hmb : isInstInt (pyget lg (Key.str "max_bytes"))
  · rw [if_pos hmb, if_pos hmb]
    repeat' split
    all_goals simp [dget_dset]
  · rw [if_neg hmb, if_neg hmb]
    repeat' split
    all_goals simp [dget_dset]

theorem dget_logStep_backup_count {env so so' : PyDict} {lg : PyDict}
    (h : logStep env so = Except.ok so')
    (hlg : pygetD env (Key.str "log") (Value.dict []) = Value.dict lg) :
    dget so' (Key.str "pystorm.log.backup_count") =
      if isInstInt (pyget lg (Key.str "backup_count"))
      then some (pyget lg (Key.str "backup_count"))
      else dget so (Key.str "pystorm.log.backup_count") := by
  unfold logStep at h
  rw [hlg] at h
  simp only [Except.ok.injEq] at h
  subst h
  by_cases hbc : isInstInt (pyget lg (Key.str "backup_count"))
  · rw [if_pos hbc, if_pos hbc]
    repeat' split
    all_goals simp [dget_dset]
  · rw [if_neg hbc, if_neg hbc]
    repeat' split
    all_goals simp [dget_dset]

theorem dget_logStep_level {env so so' : PyDict} {lg : PyDict}
    (h : logStep env so = Except.ok so')
    (hlg : pygetD env (Key.str "log") (Value.dict []) = Value.dict lg) :
    dget so' (Key.str "pystorm.log.level") =
      match pyget lg (Key.str "level") with
      | Value.str s => some (Value.str (lowerStr s))
      | _ => dget so (Key.str "pystorm.log.level") := by
  unfold logStep at h
  rw [hlg] at h
  simp only [Except.ok.injEq] at h
  subst h
  cases hlv : pyget lg (Key.str "level") <;>
    (repeat' split) <;> simp [dget_dset]

theorem dget_venvStep {env so : PyDict} (k : Key)
    (h1 : k ≠ Key.str "install_virtualenv") (h2 : k ≠ Key.str "use_virtualenv")
    (h3 : k ≠ Key.str "virtualenv_flags") (h4 : k ≠ Key.str "virtualenv_root")
    (h5 : k ≠ Key.str "virtualenv_name") :
    dget (venvStep env so) k = dget so k := by
  unfold venvStep VIRTUALENV_OPTIONS
  simp only [List.foldl]
  (repeat' split) <;> simp [dget_dset, h1, h2, h3, h4, h5]

theorem dget_sudoUserStep (env so : PyDict) (k : Key) :
    dget (sudoUserStep env so) k =
      if k = Key.str "sudo_user" then some (pyget env (Key.str "user"))
      else dget so k := by
  unfold sudoUserStep
  rw [dget_dset]

theorem dget_debugStep_ne (so : PyDict) (k : Key)
    (hk : k ≠ Key.str "pystorm.log.level") :
    dget (debugStep so) k = dget so k := by
  unfold debugStep
  split <;> simp [dget_dset, hk]

theorem dget_debugStep_level (so : PyDict) :
    dget (debugStep so) (Key.str "pystorm.log.level") =
      if truthy (pygetD so (Key.str "topology.debug") (Value.bool false))
      then some (Value.str "debug")
      else dget so (Key.str "pystorm.log.level") := by
  unfold debugStep
  split <;> simp [dget_dset]

theorem dget_workersAdjust (gsw : PyDict → Value) (env so : PyDict) (k : Key)
    (hk : k ≠ Key.str "storm.workers.list") :
    dget (workersAdjust gsw env so) k = dget so k := by
  unfold workersAdjust
  (repeat' split) <;> simp [dget_dset, hk]

theorem workersStep_local (gsw : PyDict → Value) (env so : PyDict) :
    workersStep gsw env true so =
      Except.ok (dset so (Key.str "storm.workers.list") (Value.list []), 1) := rfl

theorem workersStep_nonlocal {gsw : PyDict → Value} {env so so' : PyDict} {n : Nat}
    (h : workersStep gsw env false so = Except.ok (so', n)) :
    so' = workersAdjust gsw env so ∧
      pyLen (pyget (workersAdjust gsw env so) (Key.str "storm.workers.list")) =
        Except.ok n := by
  cases hl : pyLen (pyget (workersAdjust gsw env so) (Key.str "storm.workers.list")) with
  | error e => simp [workersStep, hl] at h
  | ok m =>
    simp [workersStep, hl] at h
    constructor
    · simp_all
    · simp_all

theorem dget_workersStep_ne {gsw : PyDict → Value} {env so so' : PyDict}
    {lo : Bool} {n : Nat}
    (h : workersStep gsw env lo so = Except.ok (so', n)) (k : Key)
    (hk : k ≠ Key.str "storm.workers.list") :
    dget so' k = dget so k := by
  cases lo with
  | true =>
    rw [workersStep_local] at h
    simp only [Except.ok.injEq, Prod.mk.injEq] at h
    rw [← h.1, dget_dset, if_neg hk]
  | false =>
    rw [(workersStep_nonlocal h).1]
    exact dget_workersAdjust gsw env so k hk

theorem dget_ackerDefaultStep_ne (n : Nat) (so : PyDict) (k : Key)
    (hk : k ≠ Key.str "topology.acker.executors") :
    dget (ackerDefaultStep n so) k = dget so k := by
  unfold ackerDefaultStep
  split <;> simp [dget_dset, hk]

theorem dget_ackerDefaultStep_self (n : Nat) (so : PyDict) :
    dget (ackerDefaultStep n so) (Key.str "topology.acker.executors") =
      if isNone (pyget so (Key.str "topology.acker.executors"))
      then some (Value.int n)
      else dget so (Key.str "topology.acker.executors") := by
  unfold ackerDefaultStep
  split <;> simp [dget_dset]

theorem dget_workersDefaultStep_ne (n : Nat) (so : PyDict) (k : Key)
    (hk : k ≠ Key.str "topology.workers") :
    dget (workersDefaultStep n so) k = dget so k := by
  unfold workersDefaultStep
  split <;> simp [dget_dset, hk]

theorem dget_workersDefaultStep_self (n : Nat) (so : PyDict) :
    dget (workersDefaultStep n so) (Key.str "topology.workers") =
      if isNone (pyget so (Key.str "topology.workers"))
      then some (Value.int n)
      else dget so (Key.str "topology.workers") := by
  unfold workersDefaultStep
  split <;> simp [dget_dset]

theorem dget_sudoDefaultStep_ne (so : PyDict) (k : Key)
    (hk : k ≠ Key.str "sudo_user") :
    dget (sudoDefaultStep so) k = dget so k := by
  unfold sudoDefaultStep
  split <;> simp [dget_dset, hk]

theorem dget_sudoDefaultStep_self (so : PyDict) :
    dget (sudoDefaultStep so) (Key.str "sudo_user") =
      if (dget so (Key.str "sudo_user")).isSome then dget so (Key.str "sudo_user")
      else some (Value.str "root") := by
  unfold sudoDefaultStep
  split <;> simp [dget_dset]

/-- The CLI dict fed into the final `update`: `cli_options or {}` leaves a
dict argument unchanged (an empty dict is falsy and is replaced by `{}`,
which is the same dict). -/
theorem cliPrep_eq {cl cliD : PyDict}
    (h : asDictE PyErr.typeError
      (if truthy (Value.dict cl) then Value.dict cl else Value.dict []) =
        Except.ok cliD) :
    cliD = cl := by
  by_cases hcl : cl.isEmpty
  · have hcl' : cl = [] := by
      cases cl with
      | nil => rfl
      | cons p t => simp [List.isEmpty] at hcl
    subst hcl'
    simp [truthy, asDictE] at h
    exact h
  · have : truthy (Value.dict cl) = true := by
      simp [truthy, hcl]
    rw [if_pos this] at h
    simp [asDictE] at h
    exact h.symm

/-- Decomposition of a successful `resolve_options` run into its stages. -/
theorem resolve_decompose {gsw : PyDict → Value} {cli : Value}
    {env topo : PyDict} {name : String} {lo : Bool} {d : PyDict}
    (hres : resolve_options gsw cli env topo name lo = Except.ok d) :
    ∃ eo so₂ so₃ cliD so₆ n,
      asDictE PyErr.typeError (pygetD env (Key.str "options") (Value.dict [])) =
        Except.ok eo ∧
      pythonPathStep env name (pyUpdate [] eo) = Except.ok so₂ ∧
      logStep env so₂ = Except.ok so₃ ∧
      asDictE PyErr.typeError
        (if truthy cli then cli else Value.dict []) = Except.ok cliD ∧
      workersStep gsw env lo
        (debugStep (pyUpdate (pyUpdate (sudoUserStep env (venvStep env so₃)) topo) cliD)) =
        Except.ok (so₆, n) ∧
      d = sudoDefaultStep (workersDefaultStep n (ackerDefaultStep n so₆)) := by
  unfold resolve_options at hres
  cases h1 : asDictE PyErr.typeError
      (pygetD env (Key.str "options") (Value.dict [])) <;> rw [h1] at hres <;>
    dsimp only at hres
  case error e => simp at hres
  case ok eo =>
  cases h2 : pythonPathStep env name (pyUpdate [] eo) <;> rw [h2] at hres <;>
    dsimp only at hres
  case error e => simp at hres
  case ok so₂ =>
  cases h3 : logStep env so₂ <;> rw [h3] at hres <;> dsimp only at hres
  case error e => simp at hres
  case ok so₃ =>
  cases h4 : asDictE PyErr.typeError
      (if truthy cli then cli else Value.dict []) <;> rw [h4] at hres <;>
    dsimp only at hres
  case error e => simp at hres
  case ok cliD =>
  cases h5 : workersStep gsw env lo
      (debugStep (pyUpdate (pyUpdate (sudoUserStep env (venvStep env so₃)) topo) cliD)) <;>
    rw [h5] at hres <;> dsimp only at hres
  case error e => simp at hres
  case ok p =>
  obtain ⟨so₆, n⟩ := p
  simp only [Except.ok.injEq] at hres
  exact ⟨eo, so₂, so₃, cliD, so₆, n, rfl, h2, h3, rfl, h5, hres.symm⟩

/-- Main precedence lemma: at every key that `resolve_options` does not itself
write while deriving defaults, the result is the CLI > topology > environment
lookup. -/
theorem dget_resolve_nonderived {gsw : PyDict → Value} {cl env topo : PyDict}
    {name : String} {lo : Bool} {d eo : PyDict} {k : Key}
    (henv : pygetD env (Key.str "options") (Value.dict []) = Value.dict eo)
    (hres : resolve_options gsw (Value.dict cl) env topo name lo = Except.ok d)
    (hk : ¬ k ∈ derivedKeys) :
    dget d k = specTieredLookup eo topo cl k := by
  obtain ⟨eo', so₂, so₃, cliD, so₆, n, h1, h2, h3, h4, h5, hd⟩ :=
    resolve_decompose hres
  rw [henv] at h1
  simp only [asDictE, Except.ok.injEq] at h1
  subst h1
  rw [cliPrep_eq h4] at h5
  simp only [derivedKeys, List.mem_cons, List.not_mem_nil, or_false, not_or] at hk
  obtain ⟨k1, k2, k3, k4, k5, k6, k7, k8, k9, k10, k11, k12, k13, k14, k15⟩ := hk
  subst hd
  rw [dget_sudoDefaultStep_ne _ _ k12, dget_workersDefaultStep_ne _ _ _ k15,
    dget_ackerDefaultStep_ne _ _ _ k14, dget_workersStep_ne h5 _ k13,
    dget_debugStep_ne _ _ k6, dget_update, dget_update, dget_sudoUserStep,
    if_neg k12, dget_venvStep _ k7 k8 k9 k10 k11,
    dget_logStep_ne h3 _ k2 k3 k4 k5 k6, dget_pythonPathStep h2 _ k1,
    dget_update, dget_nil]
  unfold specTieredLookup
  cases dget cl k <;> cases dget topo k <;> cases dget eo k <;> simp

/-- The merged three-tier state (just before the worker-count block) agrees
with the tiered lookup at every key the earlier stages do not write. -/
theorem dget_preworkers {env topo cl : PyDict} {name : String}
    {so₂ so₃ eo : PyDict} {k : Key}
    (h2 : pythonPathStep env name (pyUpdate [] eo) = Except.ok so₂)
    (h3 : logStep env so₂ = Except.ok so₃)
    (hk : ¬ k ∈ premergeWrittenKeys) :
    dget (debugStep (pyUpdate (pyUpdate (sudoUserStep env (venvStep env so₃)) topo) cl)) k =
      specTieredLookup eo topo cl k := by
  simp only [premergeWrittenKeys, List.mem_cons, List.not_mem_nil, or_false,
    not_or] at hk
  obtain ⟨k1, k2, k3, k4, k5, k6, k7, k8, k9, k10, k11, k12⟩ := hk
  rw [dget_debugStep_ne _ _ k6, dget_update, dget_update, dget_sudoUserStep,
    if_neg k12, dget_venvStep _ k7 k8 k9 k10 k11,
    dget_logStep_ne h3 _ k2 k3 k4 k5 k6, dget_pythonPathStep h2 _ k1,
    dget_update, dget_nil]
  unfold specTieredLookup
  cases dget cl k <;> cases dget topo k <;> cases dget eo k <;> simp

theorem dget_postworkers_ne {so₆ : PyDict} {n : Nat} {k : Key}
    (h1 : k ≠ Key.str "topology.acker.executors")
    (h2 : k ≠ Key.str "topology.workers") (h3 : k ≠ Key.str "sudo_user") :
    dget (sudoDefaultStep (workersDefaultStep n (ackerDefaultStep n so₆))) k =
      dget so₆ k := by
  rw [dget_sudoDefaultStep_ne _ _ h3, dget_workersDefaultStep_ne _ _ _ h2,
    dget_ackerDefaultStep_ne _ _ _ h1]

theorem truthy_getD_none_false (o : Option Value) :
    truthy (o.getD Value.none) = truthy (o.getD (Value.bool false)) := by
  cases o <;> rfl

theorem dget_workersAdjust_self (gsw : PyDict → Value) (env so : PyDict) :
    dget (workersAdjust gsw env so) (Key.str "storm.workers.list") =
      if !truthy (pyget so (Key.str "storm.workers.list")) then some (gsw env)
      else
        match pyget so (Key.str "storm.workers.list") with
        | Value.str s => some (Value.list ((pySplitComma s).map Value.str))
        | _ => dget so (Key.str "storm.workers.list") := by
  unfold workersAdjust
  (repeat' split) <;> simp_all [dget_dset]

theorem workersAdjust_congr {gsw₁ gsw₂ : PyDict → Value} {env : PyDict}
    (h : gsw₁ env = gsw₂ env) :
    ∀ so, workersAdjust gsw₁ env so = workersAdjust gsw₂ env so := by
  intro so
  unfold workersAdjust
  rw [h]

theorem workersStep_congr {gsw₁ gsw₂ : PyDict → Value} {env : PyDict}
    (h : gsw₁ env = gsw₂ env) :
    ∀ lo so, workersStep gsw₁ env lo so = workersStep gsw₂ env lo so := by
  intro lo so
  unfold workersStep
  rw [workersAdjust_congr h]

/-! ### Lemmas about string-key preservation -/

theorem allStr_dset (k : Key) (v : Value) (hk : Key.isStr k = true) :
    ∀ d : PyDict, allStrKeys d = true → allStrKeys (dset d k v) = true := by
  intro d
  induction d with
  | nil =>
    intro _
    simp [dset, allStrKeys, hk]
  | cons p t ih =>
    intro hd
    obtain ⟨pk, pv⟩ := p
    simp only [allStrKeys, List.all_cons, Bool.and_eq_true] at hd
    rw [dset_cons]
    by_cases hpk : pk = k
    · rw [if_pos hpk]
      exact ih hd.2
    · rw [if_neg hpk]
      simp only [allStrKeys, List.all_cons, Bool.and_eq_true]
      exact ⟨hd.1, ih hd.2⟩

theorem allStr_update :
    ∀ d2 d1 : PyDict, allStrKeys d1 = true → allStrKeys d2 = true →
      allStrKeys (pyUpdate d1 d2) = true := by
  intro d2
  induction d2 with
  | nil =>
    intro d1 h1 _
    exact h1
  | cons p t ih =>
    intro d1 h1 h2
    obtain ⟨pk, pv⟩ := p
    simp only [allStrKeys, List.all_cons, Bool.and_eq_true] at h2
    rw [pyUpdate_cons]
    exact ih _ (allStr_dset _ _ h2.1 _ h1) h2.2

theorem allStr_pythonPathStep {env : PyDict} {name : String} {so so' : PyDict}
    (h : pythonPathStep env name so = Except.ok so')
    (hso : allStrKeys so = true) : allStrKeys so' = true := by
  unfold pythonPathStep at h
  by_cases hu : truthy (pygetD env (Key.str "use_virtualenv") (Value.bool true))
  · rw [if_pos hu] at h
    cases hr : dget env (Key.str "virtualenv_root") with
    | none => rw [hr] at h; simp at h
    | some v =>
      rw [hr] at h
      cases v with
      | str vr =>
        simp only [Except.ok.injEq] at h
        subst h
        exact allStr_dset (Key.str "topology.python.path") _ rfl _ hso
      | none => simp at h
      | bool b => simp at h
      | int n => simp at h
      | list xs => simp at h
      | dict xs => simp at h
  · rw [if_neg hu] at h
    simp only [Except.ok.injEq] at h
    subst h
    exact hso

theorem allStr_logStep {env so so' : PyDict}
    (h : logStep env so = Except.ok so') (hso : allStrKeys so = true) :
    allStrKeys so' = true := by
  unfold logStep at h
  cases hlg : pygetD env (Key.str "log") (Value.dict []) <;> rw [hlg] at h
  case dict lg =>
    simp only [Except.ok.injEq] at h
    subst h
    (repeat' split) <;>
      (repeat' first | exact hso | exact rfl | refine allStr_dset _ _ ?_ _ ?_)
  all_goals simp at h

theorem allStr_venvStep (env so : PyDict) (hso : allStrKeys so = true) :
    allStrKeys (venvStep env so) = true := by
  unfold venvStep VIRTUALENV_OPTIONS
  simp only [List.foldl]
  (repeat' split) <;>
    (repeat' first | exact hso | exact rfl | refine allStr_dset _ _ ?_ _ ?_)

theorem allStr_sudoUserStep (env so : PyDict) (hso : allStrKeys so = true) :
    allStrKeys (sudoUserStep env so) = true :=
  allStr_dset (Key.str "sudo_user") _ rfl _ hso

theorem allStr_debugStep (so : PyDict) (hso : allStrKeys so = true) :
    allStrKeys (debugStep so) = true := by
  unfold debugStep
  split
  · exact allStr_dset (Key.str "pystorm.log.level") _ rfl _ hso
  · exact hso

theorem allStr_workersStep {gsw : PyDict → Value} {env so so' : PyDict}
    {lo : Bool} {n : Nat}
    (h : workersStep gsw env lo so = Except.ok (so', n))
    (hso : allStrKeys so = true) : allStrKeys so' = true := by
  cases lo with
  | true =>
    rw [workersStep_local] at h
    simp only [Except.ok.injEq, Prod.mk.injEq] at h
    rw [← h.1]
    exact allStr_dset (Key.str "storm.workers.list") _ rfl _ hso
  | false =>
    rw [(workersStep_nonlocal h).1]
    unfold workersAdjust
    (repeat' split) <;>
      (repeat' first | exact hso | exact rfl | refine allStr_dset _ _ ?_ _ ?_)

theorem allStr_defaults (n : Nat) (so : PyDict) (hso : allStrKeys so = true) :
    allStrKeys (sudoDefaultStep (workersDefaultStep n (ackerDefaultStep n so))) = true := by
  unfold sudoDefaultStep workersDefaultStep ackerDefaultStep
  (repeat' split) <;>
    (repeat' first | exact hso | exact rfl | refine allStr_dset _ _ ?_ _ ?_)

/-! ### Lemmas about splitting on the first `=` -/

theorem splitEq1_append (a b : List Char) (ha : ¬ '=' ∈ a) :
    splitEq1 (a ++ '=' :: b) = some (a, b) := by
  induction a with
  | nil => simp [splitEq1]
  | cons c t ih =>
    simp only [List.mem_cons, not_or] at ha
    have hc : ¬ c = '=' := fun hh => ha.1 hh.symm
    simp [splitEq1, hc, ih ha.2]

theorem string_mk_data (s : String) : String.mk s.data = s := by
  cases s
  rfl

theorem option_alias_data (option val : String) :
    (option_alias option val).data = option.data ++ '=' :: val.data := by
  unfold option_alias
  rw [String.data_append, String.data_append]
  simp

/-! ### Claim theorems -/

/-- C1, counterexample: the three-tier precedence does not hold for every
key.  With `topology.debug` set on the CLI, a CLI-supplied
`pystorm.log.level` of `"info"` resolves to `"debug"`, not to the CLI
value. -/
theorem resolve_precedence_cex :
    (resolve_options (fun _ => Value.list [])
        (Value.dict [(Key.str "topology.debug", Value.bool true),
          (Key.str "pystorm.log.level", Value.str "info")])
        [(Key.str "use_virtualenv", Value.bool false)] [] "t" true).map
      (fun d => dget d (Key.str "pystorm.log.level")) =
      Except.ok (some (Value.str "debug")) ∧
    dget [(Key.str "topology.debug", Value.bool true),
        (Key.str "pystorm.log.level", Value.str "info")]
      (Key.str "pystorm.log.level") = some (Value.str "info") ∧
    some (Value.str "debug") ≠ some (Value.str "info") := by
  refine ⟨rfl, rfl, ?_⟩
  simp

/-- C1, amended: for every key other than the fifteen keys that
`resolve_options` itself writes while deriving defaults (`derivedKeys`), the
resolved dictionary maps the key to `cli_options[k]` when present, otherwise
to `topology_class.config[k]` when present, otherwise to
`env_config["options"][k]` when present (and omits it otherwise). -/
theorem resolve_precedence_amended {gsw : PyDict → Value} {cl env topo : PyDict}
    {name : String} {lo : Bool} {d eo : PyDict} {k : Key}
    (henv : pygetD env (Key.str "options") (Value.dict []) = Value.dict eo)
    (hres : resolve_options gsw (Value.dict cl) env topo name lo = Except.ok d)
    (hk : ¬ k ∈ derivedKeys) :
    dget d k = specTieredLookup eo topo cl k :=
  dget_resolve_nonderived henv hres hk

/-- C1, witness for the amended theorem at a concrete input. -/
theorem resolve_precedence_amended_witness :
    dget [(Key.str "use_virtualenv", Value.bool false),
        (Key.str "sudo_user", Value.none), (Key.str "a", Value.int 1),
        (Key.str "storm.workers.list", Value.list []),
        (Key.str "topology.acker.executors", Value.int 1),
        (Key.str "topology.workers", Value.int 1)] (Key.str "a") =
      specTieredLookup [] [] [(Key.str "a", Value.int 1)] (Key.str "a") :=
  @resolve_precedence_amended (fun _ => Value.list [])
    [(Key.str "a", Value.int 1)] [(Key.str "use_virtualenv", Value.bool false)]
    [] "t" true
    [(Key.str "use_virtualenv", Value.bool false),
      (Key.str "sudo_user", Value.none), (Key.str "a", Value.int 1),
      (Key.str "storm.workers.list", Value.list []),
      (Key.str "topology.acker.executors", Value.int 1),
      (Key.str "topology.workers", Value.int 1)]
    [] (Key.str "a") rfl rfl (by decide)

/-- C2: evaluation of `resolve_options` at an input where neither the CLI,
the topology config nor `env_config` provides a (sudo) user.  The claim (and
the comment above the `setdefault` in the source) expect `"root"`, but the
unconditional `storm_options["sudo_user"] = env_config.get("user", None)`
earlier in the function means the key is always present, so the `setdefault`
never fires and the resolved value is `None`. -/
theorem resolve_sudo_user_default_bug :
    (resolve_options (fun _ => Value.list []) Value.none
        [(Key.str "use_virtualenv", Value.bool false)] [] "t" true).map
      (fun d => dget d (Key.str "sudo_user")) = Except.ok (some Value.none) ∧
    some Value.none ≠ some (Value.str "root") := by
  refine ⟨rfl, ?_⟩
  simp

/-- C4: in every dictionary returned by `resolve_options`, if the resolved
`topology.debug` is truthy then the resolved `pystorm.log.level` is exactly
`"debug"`, whatever level any of the three sources supplied. -/
theorem resolve_debug_forces_log_level {gsw : PyDict → Value} {cli : Value}
    {env topo : PyDict} {name : String} {lo : Bool} {d : PyDict}
    (hres : resolve_options gsw cli env topo name lo = Except.ok d)
    (hdbg : truthy (pyget d (Key.str "topology.debug")) = true) :
    dget d (Key.str "pystorm.log.level") = some (Value.str "debug") := by
  obtain ⟨eo, so₂, so₃, cliD, so₆, n, h1, h2, h3, h4, h5, hd⟩ :=
    resolve_decompose hres
  subst hd
  have hdbg' : dget (pyUpdate (pyUpdate (sudoUserStep env (venvStep env so₃)) topo) cliD)
      (Key.str "topology.debug") =
      dget (sudoDefaultStep (workersDefaultStep n (ackerDefaultStep n so₆)))
        (Key.str "topology.debug") := by
    rw [dget_postworkers_ne (by decide) (by decide) (by decide),
      dget_workersStep_ne h5 _ (by decide), dget_debugStep_ne _ _ (by decide)]
  rw [dget_postworkers_ne (by decide) (by decide) (by decide),
    dget_workersStep_ne h5 _ (by decide), dget_debugStep_level]
  rw [pygetD, ← truthy_getD_none_false, hdbg', ← pyget]
  rw [hdbg]
  simp

/-- C6: `resolve_options` is deterministic.  Its result depends on the
external `get_storm_workers` lookup only through the value that lookup
returns for `env_config`: two runs on equal arguments whose lookups agree
there return equal dictionaries. -/
theorem resolve_options_deterministic (gsw₁ gsw₂ : PyDict → Value)
    (cli : Value) (env topo : PyDict) (name : String) (lo : Bool)
    (h : gsw₁ env = gsw₂ env) :
    resolve_options gsw₁ cli env topo name lo =
      resolve_options gsw₂ cli env topo name lo := by
  unfold resolve_options
  simp only [workersStep_congr h]

/-- C6, witness: two syntactically different lookups that agree on the
environment give identical results. -/
theorem resolve_options_deterministic_witness :
    resolve_options (fun _ => Value.list []) (Value.dict [])
        [(Key.str "use_virtualenv", Value.bool false)] [] "t" false =
      resolve_options
        (fun d => if d.isEmpty then Value.none else Value.list [])
        (Value.dict []) [(Key.str "use_virtualenv", Value.bool false)] []
        "t" false :=
  resolve_options_deterministic (fun _ => Value.list [])
    (fun d => if d.isEmpty then Value.none else Value.list [])
    (Value.dict []) [(Key.str "use_virtualenv", Value.bool false)] [] "t"
    false rfl

/-- C9, counterexample: with `env_config = {"options": 5}` (no
`use_virtualenv`, no `virtualenv_root`) the claim predicts a KeyError, but
`storm_options.update(env_config.get("options", {}))` raises TypeError first,
before the virtualenv block runs. -/
theorem resolve_virtualenv_keyerror_cex :
    resolve_options (fun _ => Value.list []) Value.none
        [(Key.str "options", Value.int 5)] [] "t" true =
      Except.error PyErr.typeError ∧
    PyErr.typeError ≠ PyErr.keyError "virtualenv_root" := by
  refine ⟨rfl, ?_⟩
  decide

/-- C10: constructing a `_StoreDictAction` raises ValueError exactly when
`nargs == 0` (under Python `==`, which also equates `False` with `0`), or
`const` is not `None` while `nargs` is not `"?"`; every other combination
constructs successfully. -/
theorem storeDictInit_valueError_iff (nargs const : Value) :
    (storeDictInit nargs const = Except.error PyErr.valueError ↔
      ((nargs = Value.int 0 ∨ nargs = Value.bool false) ∨
        (const ≠ Value.none ∧ nargs ≠ Value.str "?"))) ∧
    (storeDictInit nargs const = Except.ok () ↔
      ¬ ((nargs = Value.int 0 ∨ nargs = Value.bool false) ∨
        (const ≠ Value.none ∧ nargs ≠ Value.str "?"))) := by
  have hz : pyEqZero nargs = true ↔
      (nargs = Value.int 0 ∨ nargs = Value.bool false) := by
    cases nargs <;> simp [pyEqZero]
  have hq : pyEqQuestion nargs = true ↔ nargs = Value.str "?" := by
    cases nargs <;> simp [pyEqQuestion]
  have hn : isNone const = true ↔ const = Value.none := by
    cases const <;> simp [isNone]
  unfold storeDictInit
  by_cases h1 : pyEqZero nargs = true
  · rw [if_pos h1]
    constructor
    · simp [hz.mp h1]
    · simp [hz.mp h1]
  · rw [if_neg h1]
    have h1' : ¬ (nargs = Value.int 0 ∨ nargs = Value.bool false) :=
      fun hh => h1 (hz.mpr hh)
    by_cases h2 : (!isNone const && !pyEqQuestion nargs) = true
    · rw [if_pos h2]
      simp only [Bool.and_eq_true, Bool.not_eq_true'] at h2
      have hc : const ≠ Value.none := fun hh => by
        rw [hn.mpr hh] at h2
        exact absurd h2.1 (by simp)
      have hqn : nargs ≠ Value.str "?" := fun hh => by
        rw [hq.mpr hh] at h2
        exact absurd h2.2 (by simp)
      constructor
      · simp [h1', hc, hqn]
      · simp [h1', hc, hqn]
    · rw [if_neg h2]
      simp only [Bool.and_eq_true, Bool.not_eq_true', not_and] at h2
      have hr : ¬ (const ≠ Value.none ∧ nargs ≠ Value.str "?") := by
        intro hh
        by_cases hcn : isNone const = false
        · have := h2 hcn
          exact hh.2 (hq.mp (by simp [this]))
        · have : isNone const = true := by
            cases hcc : isNone const
            · exact absurd hcc hcn
            · rfl
          exact hh.1 (hn.mp this)
      constructor
      · simp [h1', hr]
      · simp [h1', hr]

/-- C4, witness at a concrete input with `--debug` set on the CLI. -/
theorem resolve_debug_forces_log_level_witness :
    dget [(Key.str "use_virtualenv", Value.bool false),
        (Key.str "sudo_user", Value.none),
        (Key.str "topology.debug", Value.bool true),
        (Key.str "pystorm.log.level", Value.str "debug"),
        (Key.str "storm.workers.list", Value.list []),
        (Key.str "topology.acker.executors", Value.int 1),
        (Key.str "topology.workers", Value.int 1)]
      (Key.str "pystorm.log.level") = some (Value.str "debug") :=
  @resolve_debug_forces_log_level (fun _ => Value.list [])
    (Value.dict [(Key.str "topology.debug", Value.bool true)])
    [(Key.str "use_virtualenv", Value.bool false)] [] "t" true
    [(Key.str "use_virtualenv", Value.bool false),
      (Key.str "sudo_user", Value.none),
      (Key.str "topology.debug", Value.bool true),
      (Key.str "pystorm.log.level", Value.str "debug"),
      (Key.str "storm.workers.list", Value.list []),
      (Key.str "topology.acker.executors", Value.int 1),
      (Key.str "topology.workers", Value.int 1)]
    rfl rfl

/-- C3, counterexample: an empty-string `storm.workers.list` is falsy, so it
is replaced by the `get_storm_workers` result instead of being split on
commas (Python would split `""` into `[""]`). -/
theorem resolve_workers_split_cex :
    specTieredPyget [] [] [(Key.str "storm.workers.list", Value.str "")]
      (Key.str "storm.workers.list") = Value.str "" ∧
    (resolve_options (fun _ => Value.list [Value.str "h1", Value.str "h2"])
        (Value.dict [(Key.str "storm.workers.list", Value.str "")])
        [(Key.str "use_virtualenv", Value.bool false)] [] "t" false).map
      (fun d => dget d (Key.str "storm.workers.list")) =
      Except.ok (some (Value.list [Value.str "h1", Value.str "h2"])) ∧
    pySplitComma "" = [""] ∧
    Value.list [Value.str "h1", Value.str "h2"] ≠ Value.list [Value.str ""] := by
  refine ⟨rfl, rfl, rfl, ?_⟩
  simp

/-- C3, amended: if after merging the three tiers `topology.acker.executors`
is absent or None, it is set to the number of entries in the resolved
`storm.workers.list` (1 when `local_only`, where the list is forced to `[]`);
independently the same holds for `topology.workers`; and a *non-empty* string
value of `storm.workers.list` is first split on commas into a list (an empty
string is falsy and is replaced by the `get_storm_workers` result
instead). -/
theorem resolve_worker_defaults_amended {gsw : PyDict → Value}
    {cl env topo : PyDict} {name : String} {lo : Bool} {d eo : PyDict}
    (s : String)
    (henv : pygetD env (Key.str "options") (Value.dict []) = Value.dict eo)
    (hres : resolve_options gsw (Value.dict cl) env topo name lo = Except.ok d) :
    (specTieredPyget eo topo cl (Key.str "topology.acker.executors") = Value.none →
      dget d (Key.str "topology.acker.executors") =
        if lo then some (Value.int 1)
        else ((pyLen (pyget d (Key.str "storm.workers.list"))).map
          (fun n => Value.int (Int.ofNat n))).toOption) ∧
    (specTieredPyget eo topo cl (Key.str "topology.workers") = Value.none →
      dget d (Key.str "topology.workers") =
        if lo then some (Value.int 1)
        else ((pyLen (pyget d (Key.str "storm.workers.list"))).map
          (fun n => Value.int (Int.ofNat n))).toOption) ∧
    (lo = true → dget d (Key.str "storm.workers.list") = some (Value.list [])) ∧
    (lo = false →
      specTieredPyget eo topo cl (Key.str "storm.workers.list") = Value.str s →
      s ≠ "" →
      dget d (Key.str "storm.workers.list") =
        some (Value.list ((pySplitComma s).map Value.str))) := by
  obtain ⟨eo', so₂, so₃, cliD, so₆, n, h1, h2, h3, h4, h5, hd⟩ :=
    resolve_decompose hres
  rw [henv] at h1
  simp only [asDictE, Except.ok.injEq] at h1
  subst h1
  rw [cliPrep_eq h4] at h5
  subst hd
  have hTack := @dget_preworkers env topo cl name so₂ so₃ eo
    (Key.str "topology.acker.executors") h2 h3 (by decide)
  have hTwrk := @dget_preworkers env topo cl name so₂ so₃ eo
    (Key.str "topology.workers") h2 h3 (by decide)
  have hTswl := @dget_preworkers env topo cl name so₂ so₃ eo
    (Key.str "storm.workers.list") h2 h3 (by decide)
  cases lo with
  | true =>
    rw [workersStep_local] at h5
    simp only [Except.ok.injEq, Prod.mk.injEq] at h5
    obtain ⟨h5a, h5b⟩ := h5
    subst h5a
    subst h5b
    refine ⟨?_, ?_, ?_, ?_⟩
    · intro ha
      rw [if_pos rfl, dget_sudoDefaultStep_ne _ _ (by decide),
        dget_workersDefaultStep_ne _ _ _ (by decide), dget_ackerDefaultStep_self]
      have hpg : pyget (dset (debugStep (pyUpdate (pyUpdate
          (sudoUserStep env (venvStep env so₃)) topo) cl))
          (Key.str "storm.workers.list") (Value.list []))
          (Key.str "topology.acker.executors") = Value.none := by
        unfold pyget
        rw [dget_dset, if_neg (by decide), hTack]
        exact ha
      rw [hpg]
      rfl
    · intro hw
      rw [if_pos rfl, dget_sudoDefaultStep_ne _ _ (by decide),
        dget_workersDefaultStep_self]
      have hpg : pyget (ackerDefaultStep 1 (dset (debugStep (pyUpdate (pyUpdate
          (sudoUserStep env (venvStep env so₃)) topo) cl))
          (Key.str "storm.workers.list") (Value.list [])))
          (Key.str "topology.workers") = Value.none := by
        unfold pyget
        rw [dget_ackerDefaultStep_ne _ _ _ (by decide), dget_dset,
          if_neg (by decide), hTwrk]
        exact hw
      rw [hpg]
      rfl
    · intro _
      rw [dget_postworkers_ne (by decide) (by decide) (by decide), dget_dset,
        if_pos rfl]
    · intro hx
      simp at hx
  | false =>
    obtain ⟨h5a, hlen⟩ := workersStep_nonlocal h5
    subst h5a
    have hds : dget (sudoDefaultStep (workersDefaultStep n (ackerDefaultStep n
        (workersAdjust gsw env (debugStep (pyUpdate (pyUpdate
          (sudoUserStep env (venvStep env so₃)) topo) cl))))))
        (Key.str "storm.workers.list") =
        dget (workersAdjust gsw env (debugStep (pyUpdate (pyUpdate
          (sudoUserStep env (venvStep env so₃)) topo) cl)))
        (Key.str "storm.workers.list") :=
      dget_postworkers_ne (by decide) (by decide) (by decide)
    have hpg2 : pyget (sudoDefaultStep (workersDefaultStep n (ackerDefaultStep n
        (workersAdjust gsw env (debugStep (pyUpdate (pyUpdate
          (sudoUserStep env (venvStep env so₃)) topo) cl))))))
        (Key.str "storm.workers.list") =
        pyget (workersAdjust gsw env (debugStep (pyUpdate (pyUpdate
          (sudoUserStep env (venvStep env so₃)) topo) cl)))
        (Key.str "storm.workers.list") := by
      unfold pyget
      rw [hds]
    refine ⟨?_, ?_, ?_, ?_⟩
    · intro ha
      rw [if_neg (by decide), dget_sudoDefaultStep_ne _ _ (by decide),
        dget_workersDefaultStep_ne _ _ _ (by decide), dget_ackerDefaultStep_self]
      have hpg : pyget (workersAdjust gsw env (debugStep (pyUpdate (pyUpdate
          (sudoUserStep env (venvStep env so₃)) topo) cl)))
          (Key.str "topology.acker.executors") = Value.none := by
        unfold pyget
        rw [dget_workersAdjust _ _ _ _ (by decide), hTack]
        exact ha
      rw [hpg]
      simp only [isNone, if_pos]
      rw [hpg2, hlen]
      rfl
    · intro hw
      rw [if_neg (by decide), dget_sudoDefaultStep_ne _ _ (by decide),
        dget_workersDefaultStep_self]
      have hpg : pyget (ackerDefaultStep n (workersAdjust gsw env (debugStep
          (pyUpdate (pyUpdate (sudoUserStep env (venvStep env so₃)) topo) cl))))
          (Key.str "topology.workers") = Value.none := by
        unfold pyget
        rw [dget_ackerDefaultStep_ne _ _ _ (by decide),
          dget_workersAdjust _ _ _ _ (by decide), hTwrk]
        exact hw
      rw [hpg]
      simp only [isNone, if_pos]
      rw [hpg2, hlen]
      rfl
    · intro hx
      simp at hx
    · intro _ hs hs'
      rw [hds, dget_workersAdjust_self]
      have hpgT : pyget (debugStep (pyUpdate (pyUpdate
          (sudoUserStep env (venvStep env so₃)) topo) cl))
          (Key.str "storm.workers.list") = Value.str s := by
        unfold pyget
        rw [hTswl]
        exact hs
      rw [hpgT]
      have htr : truthy (Value.str s) = true := by
        simp [truthy, hs']
      rw [htr]
      rfl

/-- C3, witness: CLI supplies `storm.workers.list = "a,b"`, nothing sets the
acker/worker counts, `local_only` is false. -/
theorem resolve_worker_defaults_amended_witness :
    (specTieredPyget [] [] [(Key.str "storm.workers.list", Value.str "a,b")]
        (Key.str "topology.acker.executors") = Value.none →
      dget [(Key.str "use_virtualenv", Value.bool false),
          (Key.str "sudo_user", Value.none),
          (Key.str "storm.workers.list",
            Value.list [Value.str "a", Value.str "b"]),
          (Key.str "topology.acker.executors", Value.int 2),
          (Key.str "topology.workers", Value.int 2)]
        (Key.str "topology.acker.executors") =
        if false then some (Value.int 1)
        else ((pyLen (pyget [(Key.str "use_virtualenv", Value.bool false),
            (Key.str "sudo_user", Value.none),
            (Key.str "storm.workers.list",
              Value.list [Value.str "a", Value.str "b"]),
            (Key.str "topology.acker.executors", Value.int 2),
            (Key.str "topology.workers", Value.int 2)]
          (Key.str "storm.workers.list"))).map
            (fun n => Value.int (Int.ofNat n))).toOption) ∧
    (specTieredPyget [] [] [(Key.str "storm.workers.list", Value.str "a,b")]
        (Key.str "topology.workers") = Value.none →
      dget [(Key.str "use_virtualenv", Value.bool false),
          (Key.str "sudo_user", Value.none),
          (Key.str "storm.workers.list",
            Value.list [Value.str "a", Value.str "b"]),
          (Key.str "topology.acker.executors", Value.int 2),
          (Key.str "topology.workers", Value.int 2)]
        (Key.str "topology.workers") =
        if false then some (Value.int 1)
        else ((pyLen (pyget [(Key.str "use_virtualenv", Value.bool false),
            (Key.str "sudo_user", Value.none),
            (Key.str "storm.workers.list",
              Value.list [Value.str "a", Value.str "b"]),
            (Key.str "topology.acker.executors", Value.int 2),
            (Key.str "topology.workers", Value.int 2)]
          (Key.str "storm.workers.list"))).map
            (fun n => Value.int (Int.ofNat n))).toOption) ∧
    (false = true →
      dget [(Key.str "use_virtualenv", Value.bool false),
          (Key.str "sudo_user", Value.none),
          (Key.str "storm.workers.list",
            Value.list [Value.str "a", Value.str "b"]),
          (Key.str "topology.acker.executors", Value.int 2),
          (Key.str "topology.workers", Value.int 2)]
        (Key.str "storm.workers.list") = some (Value.list [])) ∧
    (false = false →
      specTieredPyget [] [] [(Key.str "storm.workers.list", Value.str "a,b")]
        (Key.str "storm.workers.list") = Value.str "a,b" →
      "a,b" ≠ "" →
      dget [(Key.str "use_virtualenv", Value.bool false),
          (Key.str "sudo_user", Value.none),
          (Key.str "storm.workers.list",
            Value.list [Value.str "a", Value.str "b"]),
          (Key.str "topology.acker.executors", Value.int 2),
          (Key.str "topology.workers", Value.int 2)]
        (Key.str "storm.workers.list") =
        some (Value.list ((pySplitComma "a,b").map Value.str))) :=
  @resolve_worker_defaults_amended
    (fun _ => Value.list [Value.str "h1", Value.str "h2"])
    [(Key.str "storm.workers.list", Value.str "a,b")]
    [(Key.str "use_virtualenv", Value.bool false)] [] "t" false
    [(Key.str "use_virtualenv", Value.bool false),
      (Key.str "sudo_user", Value.none),
      (Key.str "storm.workers.list", Value.list [Value.str "a", Value.str "b"]),
      (Key.str "topology.acker.executors", Value.int 2),
      (Key.str "topology.workers", Value.int 2)]
    [] "a,b" rfl rfl

/-- C5, counterexample: when `env_config["options"]` itself contains
`pystorm.log.path` and no log path is configured, the resolved key is
present (with the options value), while the claim says it is absent. -/
theorem resolve_log_defaults_cex :
    (resolve_options (fun _ => Value.list []) Value.none
        [(Key.str "options",
            Value.dict [(Key.str "pystorm.log.path", Value.str "x")]),
          (Key.str "use_virtualenv", Value.bool false)] [] "t" true).map
      (fun d => dget d (Key.str "pystorm.log.path")) =
      Except.ok (some (Value.str "x")) ∧
    some (Value.str "x") ≠ (Option.none : Option Value) := by
  refine ⟨rfl, ?_⟩
  simp

/-- C5, amended: the logging defaults are derived as claimed, additionally
provided `env_config["options"]` does not itself contain the key in question
(and, for `pystorm.log.level`, that the resolved `topology.debug` is not
truthy, which would overwrite the level with `"debug"`). -/
theorem resolve_log_defaults_amended {gsw : PyDict → Value}
    {cl env topo : PyDict} {name : String} {lo : Bool} {d eo lg : PyDict}
    (henv : pygetD env (Key.str "options") (Value.dict []) = Value.dict eo)
    (hlg : pygetD env (Key.str "log") (Value.dict []) = Value.dict lg)
    (hres : resolve_options gsw (Value.dict cl) env topo name lo = Except.ok d) :
    (dget cl (Key.str "pystorm.log.path") = Option.none →
      dget topo (Key.str "pystorm.log.path") = Option.none →
      dget eo (Key.str "pystorm.log.path") = Option.none →
      dget d (Key.str "pystorm.log.path") =
        (if truthy (pyOr (pyget lg (Key.str "path"))
            (pyget env (Key.str "log_path")))
         then some (pyOr (pyget lg (Key.str "path"))
            (pyget env (Key.str "log_path")))
         else Option.none)) ∧
    (dget cl (Key.str "pystorm.log.file") = Option.none →
      dget topo (Key.str "pystorm.log.file") = Option.none →
      dget eo (Key.str "pystorm.log.file") = Option.none →
      dget d (Key.str "pystorm.log.file") =
        (if truthy (pyOr (pyget lg (Key.str "file"))
            (pyget env (Key.str "log_file")))
         then some (pyOr (pyget lg (Key.str "file"))
            (pyget env (Key.str "log_file")))
         else Option.none)) ∧
    (dget cl (Key.str "pystorm.log.max_bytes") = Option.none →
      dget topo (Key.str "pystorm.log.max_bytes") = Option.none →
      dget eo (Key.str "pystorm.log.max_bytes") = Option.none →
      dget d (Key.str "pystorm.log.max_bytes") =
        (if isInstInt (pyget lg (Key.str "max_bytes"))
         then some (pyget lg (Key.str "max_bytes"))
         else Option.none)) ∧
    (dget cl (Key.str "pystorm.log.backup_count") = Option.none →
      dget topo (Key.str "pystorm.log.backup_count") = Option.none →
      dget eo (Key.str "pystorm.log.backup_count") = Option.none →
      dget d (Key.str "pystorm.log.backup_count") =
        (if isInstInt (pyget lg (Key.str "backup_count"))
         then some (pyget lg (Key.str "backup_count"))
         else Option.none)) ∧
    (truthy (pyget d (Key.str "topology.debug")) = false →
      dget cl (Key.str "pystorm.log.level") = Option.none →
      dget topo (Key.str "pystorm.log.level") = Option.none →
      dget eo (Key.str "pystorm.log.level") = Option.none →
      dget d (Key.str "pystorm.log.level") =
        (match pyget lg (Key.str "level") with
         | Value.str s => some (Value.str (lowerStr s))
         | _ => Option.none)) := by
  obtain ⟨eo', so₂, so₃, cliD, so₆, n, h1, h2, h3, h4, h5, hd⟩ :=
    resolve_decompose hres
  rw [henv] at h1
  simp only [asDictE, Except.ok.injEq] at h1
  subst h1
  rw [cliPrep_eq h4] at h5
  subst hd
  refine ⟨?_, ?_, ?_, ?_, ?_⟩
  · intro hc ht he
    rw [dget_postworkers_ne (by decide) (by decide) (by decide),
      dget_workersStep_ne h5 _ (by decide), dget_debugStep_ne _ _ (by decide),
      dget_update, hc]
    dsimp only
    rw [dget_update, ht]
    dsimp only
    rw [dget_sudoUserStep, if_neg (by decide),
      dget_venvStep _ (by decide) (by decide) (by decide) (by decide) (by decide),
      dget_logStep_path h3 hlg, dget_pythonPathStep h2 _ (by decide),
      dget_update, he]
    simp [dget]
  · intro hc ht he
    rw [dget_postworkers_ne (by decide) (by decide) (by decide),
      dget_workersStep_ne h5 _ (by decide), dget_debugStep_ne _ _ (by decide),
      dget_update, hc]
    dsimp only
    rw [dget_update, ht]
    dsimp only
    rw [dget_sudoUserStep, if_neg (by decide),
      dget_venvStep _ (by decide) (by decide) (by decide) (by decide) (by decide),
      dget_logStep_file h3 hlg, dget_pythonPathStep h2 _ (by decide),
      dget_update, he]
    simp [dget]
  · intro hc ht he
    rw [dget_postworkers_ne (by decide) (by decide) (by decide),
      dget_workersStep_ne h5 _ (by decide), dget_debugStep_ne _ _ (by decide),
      dget_update, hc]
    dsimp only
    rw [dget_update, ht]
    dsimp only
    rw [dget_sudoUserStep, if_neg (by decide),
      dget_venvStep _ (by decide) (by decide) (by decide) (by decide) (by decide),
      dget_logStep_max_bytes h3 hlg, dget_pythonPathStep h2 _ (by decide),
      dget_update, he]
    simp [dget]
  · intro hc ht he
    rw [dget_postworkers_ne (by decide) (by decide) (by decide),
      dget_workersStep_ne h5 _ (by decide), dget_debugStep_ne _ _ (by decide),
      dget_update, hc]
    dsimp only
    rw [dget_update, ht]
    dsimp only
    rw [dget_sudoUserStep, if_neg (by decide),
      dget_venvStep _ (by decide) (by decide) (by decide) (by decide) (by decide),
      dget_logStep_backup_count h3 hlg, dget_pythonPathStep h2 _ (by decide),
      dget_update, he]
    simp [dget]
  · intro hdbg hc ht he
    have hdbg' : dget (pyUpdate (pyUpdate (sudoUserStep env (venvStep env so₃))
        topo) cl) (Key.str "topology.debug") =
        dget (sudoDefaultStep (workersDefaultStep n (ackerDefaultStep n so₆)))
          (Key.str "topology.debug") := by
      rw [dget_postworkers_ne (by decide) (by decide) (by decide),
        dget_workersStep_ne h5 _ (by decide), dget_debugStep_ne _ _ (by decide)]
    rw [dget_postworkers_ne (by decide) (by decide) (by decide),
      dget_workersStep_ne h5 _ (by decide), dget_debugStep_level]
    rw [pygetD, ← truthy_getD_none_false, hdbg', ← pyget, hdbg]
    rw [if_neg (by decide)]
    rw [dget_update, hc]
    dsimp only
    rw [dget_update, ht]
    dsimp only
    rw [dget_sudoUserStep, if_neg (by decide),
      dget_venvStep _ (by decide) (by decide) (by decide) (by decide) (by decide),
      dget_logStep_level h3 hlg, dget_pythonPathStep h2 _ (by decide),
      dget_update, he]
    simp [dget]

/-- C5, witness: a log config with a path, a `max_bytes` int and an
upper-case level. -/
theorem resolve_log_defaults_amended_witness :
    (dget ([] : PyDict) (Key.str "pystorm.log.path") = Option.none →
      dget ([] : PyDict) (Key.str "pystorm.log.path") = Option.none →
      dget ([] : PyDict) (Key.str "pystorm.log.path") = Option.none →
      dget [(Key.str "pystorm.log.path", Value.str "/var/log"),
          (Key.str "pystorm.log.max_bytes", Value.int 10),
          (Key.str "pystorm.log.level", Value.str "info"),
          (Key.str "use_virtualenv", Value.bool false),
          (Key.str "sudo_user", Value.none),
          (Key.str "storm.workers.list", Value.list []),
          (Key.str "topology.acker.executors", Value.int 1),
          (Key.str "topology.workers", Value.int 1)]
        (Key.str "pystorm.log.path") =
        (if truthy (pyOr (pyget [(Key.str "path", Value.str "/var/log"),
              (Key.str "max_bytes", Value.int 10),
              (Key.str "level", Value.str "INFO")] (Key.str "path"))
            (pyget [(Key.str "use_virtualenv", Value.bool false),
              (Key.str "log", Value.dict [(Key.str "path", Value.str "/var/log"),
                (Key.str "max_bytes", Value.int 10),
                (Key.str "level", Value.str "INFO")])] (Key.str "log_path")))
         then some (pyOr (pyget [(Key.str "path", Value.str "/var/log"),
              (Key.str "max_bytes", Value.int 10),
              (Key.str "level", Value.str "INFO")] (Key.str "path"))
            (pyget [(Key.str "use_virtualenv", Value.bool false),
              (Key.str "log", Value.dict [(Key.str "path", Value.str "/var/log"),
                (Key.str "max_bytes", Value.int 10),
                (Key.str "level", Value.str "INFO")])] (Key.str "log_path")))
         else Option.none)) ∧
    (dget ([] : PyDict) (Key.str "pystorm.log.file") = Option.none →
      dget ([] : PyDict) (Key.str "pystorm.log.file") = Option.none →
      dget ([] : PyDict) (Key.str "pystorm.log.file") = Option.none →
      dget [(Key.str "pystorm.log.path", Value.str "/var/log"),
          (Key.str "pystorm.log.max_bytes", Value.int 10),
          (Key.str "pystorm.log.level", Value.str "info"),
          (Key.str "use_virtualenv", Value.bool false),
          (Key.str "sudo_user", Value.none),
          (Key.str "storm.workers.list", Value.list []),
          (Key.str "topology.acker.executors", Value.int 1),
          (Key.str "topology.workers", Value.int 1)]
        (Key.str "pystorm.log.file") =
        (if truthy (pyOr (pyget [(Key.str "path", Value.str "/var/log"),
              (Key.str "max_bytes", Value.int 10),
              (Key.str "level", Value.str "INFO")] (Key.str "file"))
            (pyget [(Key.str "use_virtualenv", Value.bool false),
              (Key.str "log", Value.dict [(Key.str "path", Value.str "/var/log"),
                (Key.str "max_bytes", Value.int 10),
                (Key.str "level", Value.str "INFO")])] (Key.str "log_file")))
         then some (pyOr (pyget [(Key.str "path", Value.str "/var/log"),
              (Key.str "max_bytes", Value.int 10),
              (Key.str "level", Value.str "INFO")] (Key.str "file"))
            (pyget [(Key.str "use_virtualenv", Value.bool false),
              (Key.str "log", Value.dict [(Key.str "path", Value.str "/var/log"),
                (Key.str "max_bytes", Value.int 10),
                (Key.str "level", Value.str "INFO")])] (Key.str "log_file")))
         else Option.none)) ∧
    (dget ([] : PyDict) (Key.str "pystorm.log.max_bytes") = Option.none →
      dget ([] : PyDict) (Key.str "pystorm.log.max_bytes") = Option.none →
      dget ([] : PyDict) (Key.str "pystorm.log.max_bytes") = Option.none →
      dget [(Key.str "pystorm.log.path", Value.str "/var/log"),
          (Key.str "pystorm.log.max_bytes", Value.int 10),
          (Key.str "pystorm.log.level", Value.str "info"),
          (Key.str "use_virtualenv", Value.bool false),
          (Key.str "sudo_user", Value.none),
          (Key.str "storm.workers.list", Value.list []),
          (Key.str "topology.acker.executors", Value.int 1),
          (Key.str "topology.workers", Value.int 1)]
        (Key.str "pystorm.log.max_bytes") =
        (if isInstInt (pyget [(Key.str "path", Value.str "/var/log"),
            (Key.str "max_bytes", Value.int 10),
            (Key.str "level", Value.str "INFO")] (Key.str "max_bytes"))
         then some (pyget [(Key.str "path", Value.str "/var/log"),
            (Key.str "max_bytes", Value.int 10),
            (Key.str "level", Value.str "INFO")] (Key.str "max_bytes"))
         else Option.none)) ∧
    (dget ([] : PyDict) (Key.str "pystorm.log.backup_count") = Option.none →
      dget ([] : PyDict) (Key.str "pystorm.log.backup_count") = Option.none →
      dget ([] : PyDict) (Key.str "pystorm.log.backup_count") = Option.none →
      dget [(Key.str "pystorm.log.path", Value.str "/var/log"),
          (Key.str "pystorm.log.max_bytes", Value.int 10),
          (Key.str "pystorm.log.level", Value.str "info"),
          (Key.str "use_virtualenv", Value.bool false),
          (Key.str "sudo_user", Value.none),
          (Key.str "storm.workers.list", Value.list []),
          (Key.str "topology.acker.executors", Value.int 1),
          (Key.str "topology.workers", Value.int 1)]
        (Key.str "pystorm.log.backup_count") =
        (if isInstInt (pyget [(Key.str "path", Value.str "/var/log"),
            (Key.str "max_bytes", Value.int 10),
            (Key.str "level", Value.str "INFO")] (Key.str "backup_count"))
         then some (pyget [(Key.str "path", Value.str "/var/log"),
            (Key.str "max_bytes", Value.int 10),
            (Key.str "level", Value.str "INFO")] (Key.str "backup_count"))
         else Option.none)) ∧
    (truthy (pyget [(Key.str "pystorm.log.path", Value.str "/var/log"),
          (Key.str "pystorm.log.max_bytes", Value.int 10),
          (Key.str "pystorm.log.level", Value.str "info"),
          (Key.str "use_virtualenv", Value.bool false),
          (Key.str "sudo_user", Value.none),
          (Key.str "storm.workers.list", Value.list []),
          (Key.str "topology.acker.executors", Value.int 1),
          (Key.str "topology.workers", Value.int 1)]
        (Key.str "topology.debug")) = false →
      dget ([] : PyDict) (Key.str "pystorm.log.level") = Option.none →
      dget ([] : PyDict) (Key.str "pystorm.log.level") = Option.none →
      dget ([] : PyDict) (Key.str "pystorm.log.level") = Option.none →
      dget [(Key.str "pystorm.log.path", Value.str "/var/log"),
          (Key.str "pystorm.log.max_bytes", Value.int 10),
          (Key.str "pystorm.log.level", Value.str "info"),
          (Key.str "use_virtualenv", Value.bool false),
          (Key.str "sudo_user", Value.none),
          (Key.str "storm.workers.list", Value.list []),
          (Key.str "topology.acker.executors", Value.int 1),
          (Key.str "topology.workers", Value.int 1)]
        (Key.str "pystorm.log.level") =
        (match pyget [(Key.str "path", Value.str "/var/log"),
            (Key.str "max_bytes", Value.int 10),
            (Key.str "level", Value.str "INFO")] (Key.str "level") with
         | Value.str s => some (Value.str (lowerStr s))
         | _ => Option.none)) :=
  @resolve_log_defaults_amended (fun _ => Value.list []) []
    [(Key.str "use_virtualenv", Value.bool false),
      (Key.str "log", Value.dict [(Key.str "path", Value.str "/var/log"),
        (Key.str "max_bytes", Value.int 10),
        (Key.str "level", Value.str "INFO")])]
    [] "t" true
    [(Key.str "pystorm.log.path", Value.str "/var/log"),
      (Key.str "pystorm.log.max_bytes", Value.int 10),
      (Key.str "pystorm.log.level", Value.str "info"),
      (Key.str "use_virtualenv", Value.bool false),
      (Key.str "sudo_user", Value.none),
      (Key.str "storm.workers.list", Value.list []),
      (Key.str "topology.acker.executors", Value.int 1),
      (Key.str "topology.workers", Value.int 1)]
    []
    [(Key.str "path", Value.str "/var/log"),
      (Key.str "max_bytes", Value.int 10), (Key.str "level", Value.str "INFO")]
    rfl rfl rfl

/-- C7: a `key=val` argument is split on the first `=` only, the value part
is YAML-parsed and stored under the key; storing into an existing dict
overwrites the value at that key and leaves every other key unchanged (so
repeated occurrences accumulate, later ones winning); `option_alias(option)`
prefixes the raw value with `option=`, so splitting recovers `option` as the
key whenever `option` contains no `=`. -/
theorem storeDict_merge_spec (yamlLoad : String → Value) (cur : Option PyDict)
    (d : PyDict) (option val : String) (k₂ : Key)
    (hk : ¬ '=' ∈ option.data) (hk2 : k₂ ≠ Key.str option) :
    storeDictCall yamlLoad cur (option_alias option val) =
      Except.ok (dset (cur.getD []) (Key.str option) (yamlLoad val)) ∧
    dget (dset d (Key.str option) (yamlLoad val)) (Key.str option) =
      some (yamlLoad val) ∧
    dget (dset d (Key.str option) (yamlLoad val)) k₂ = dget d k₂ := by
  refine ⟨?_, ?_, ?_⟩
  · unfold storeDictCall
    rw [option_alias_data, splitEq1_append _ _ hk]
  · rw [dget_dset, if_pos rfl]
  · rw [dget_dset, if_neg hk2]

/-- C7, witness: `--workers`-style alias with a value that itself contains
`=`; only the first `=` splits. -/
theorem storeDict_merge_spec_witness :
    storeDictCall (fun s => Value.str s) (some [(Key.str "x", Value.int 1)])
        (option_alias "topology.workers" "4=4") =
      Except.ok (dset [(Key.str "x", Value.int 1)]
        (Key.str "topology.workers") (Value.str "4=4")) ∧
    dget (dset [(Key.str "x", Value.int 1)] (Key.str "topology.workers")
        (Value.str "4=4")) (Key.str "topology.workers") =
      some (Value.str "4=4") ∧
    dget (dset [(Key.str "x", Value.int 1)] (Key.str "topology.workers")
        (Value.str "4=4")) (Key.str "x") =
      dget [(Key.str "x", Value.int 1)] (Key.str "x") :=
  storeDict_merge_spec (fun s => Value.str s) (some [(Key.str "x", Value.int 1)])
    [(Key.str "x", Value.int 1)] "topology.workers" "4=4" (Key.str "x")
    (by decide) (by decide)

/-- C8: when the three option sources have only string keys, every key of
the dictionary returned by `resolve_options` is a string (all keys the
function itself adds are string literals). -/
theorem resolve_keys_all_strings {gsw : PyDict → Value} {cl env topo : PyDict}
    {name : String} {lo : Bool} {d eo : PyDict}
    (henv : pygetD env (Key.str "options") (Value.dict []) = Value.dict eo)
    (hres : resolve_options gsw (Value.dict cl) env topo name lo = Except.ok d)
    (heo : allStrKeys eo = true) (hto : allStrKeys topo = true)
    (hcl : allStrKeys cl = true) :
    allStrKeys d = true := by
  obtain ⟨eo', so₂, so₃, cliD, so₆, n, h1, h2, h3, h4, h5, hd⟩ :=
    resolve_decompose hres
  rw [henv] at h1
  simp only [asDictE, Except.ok.injEq] at h1
  subst h1
  rw [cliPrep_eq h4] at h5
  subst hd
  apply allStr_defaults
  apply allStr_workersStep h5
  apply allStr_debugStep
  refine allStr_update _ _ ?_ hcl
  refine allStr_update _ _ ?_ hto
  apply allStr_sudoUserStep
  apply allStr_venvStep
  apply allStr_logStep h3
  apply allStr_pythonPathStep h2
  exact allStr_update _ _ rfl heo

/-- C8, witness at a concrete input. -/
theorem resolve_keys_all_strings_witness :
    allStrKeys [(Key.str "use_virtualenv", Value.bool false),
      (Key.str "sudo_user", Value.none), (Key.str "a", Value.int 1),
      (Key.str "storm.workers.list", Value.list []),
      (Key.str "topology.acker.executors", Value.int 1),
      (Key.str "topology.workers", Value.int 1)] = true :=
  @resolve_keys_all_strings (fun _ => Value.list [])
    [(Key.str "a", Value.int 1)] [(Key.str "use_virtualenv", Value.bool false)]
    [] "t" true
    [(Key.str "use_virtualenv", Value.bool false),
      (Key.str "sudo_user", Value.none), (Key.str "a", Value.int 1),
      (Key.str "storm.workers.list", Value.list []),
      (Key.str "topology.acker.executors", Value.int 1),
      (Key.str "topology.workers", Value.int 1)]
    [] rfl rfl rfl rfl rfl

/-- C9, amended: provided `env_config["options"]` is absent or a dict (so
the initial `update` does not raise first), `resolve_options` raises
KeyError("virtualenv_root") whenever `use_virtualenv` is truthy or absent
(the default is True) and `env_config` has no `virtualenv_root` key; when
`use_virtualenv` is present and falsy the branch is skipped and no
`topology.python.path` entry is derived (the key is absent whenever no source
supplies it). -/
theorem resolve_virtualenv_keyerror_amended {gsw : PyDict → Value}
    {cl env topo : PyDict} {name : String} {lo : Bool} {d eo : PyDict}
    (henv : pygetD env (Key.str "options") (Value.dict []) = Value.dict eo) :
    (truthy (pygetD env (Key.str "use_virtualenv") (Value.bool true)) = true →
      dget env (Key.str "virtualenv_root") = Option.none →
      resolve_options gsw (Value.dict cl) env topo name lo =
        Except.error (PyErr.keyError "virtualenv_root")) ∧
    (truthy (pygetD env (Key.str "use_virtualenv") (Value.bool true)) = false →
      resolve_options gsw (Value.dict cl) env topo name lo = Except.ok d →
      dget cl (Key.str "topology.python.path") = Option.none →
      dget topo (Key.str "topology.python.path") = Option.none →
      dget eo (Key.str "topology.python.path") = Option.none →
      dget d (Key.str "topology.python.path") = Option.none) := by
  constructor
  · intro hu hr
    unfold resolve_options
    rw [henv]
    dsimp only [asDictE]
    unfold pythonPathStep
    rw [if_pos hu, hr]
  · intro hu hres hclP htoP heoP
    obtain ⟨eo', so₂, so₃, cliD, so₆, n, h1, h2, h3, h4, h5, hd⟩ :=
      resolve_decompose hres
    rw [henv] at h1
    simp only [asDictE, Except.ok.injEq] at h1
    subst h1
    rw [cliPrep_eq h4] at h5
    subst hd
    unfold pythonPathStep at h2
    rw [if_neg (by simp [hu])] at h2
    simp only [Except.ok.injEq] at h2
    rw [dget_postworkers_ne (by decide) (by decide) (by decide),
      dget_workersStep_ne h5 _ (by decide), dget_debugStep_ne _ _ (by decide),
      dget_update, hclP]
    dsimp only
    rw [dget_update, htoP]
    dsimp only
    rw [dget_sudoUserStep, if_neg (by decide),
      dget_venvStep _ (by decide) (by decide) (by decide) (by decide) (by decide),
      dget_logStep_ne h3 _ (by decide) (by decide) (by decide) (by decide)
        (by decide),
      ← h2, dget_update, heoP]
    simp [dget]

/-- C9, witness: an empty `env_config` (options and `use_virtualenv` absent,
no `virtualenv_root`). -/
theorem resolve_virtualenv_keyerror_amended_witness :
    (truthy (pygetD ([] : PyDict) (Key.str "use_virtualenv")
        (Value.bool true)) = true →
      dget ([] : PyDict) (Key.str "virtualenv_root") = Option.none →
      resolve_options (fun _ => Value.list []) (Value.dict []) [] [] "t" true =
        Except.error (PyErr.keyError "virtualenv_root")) ∧
    (truthy (pygetD ([] : PyDict) (Key.str "use_virtualenv")
        (Value.bool true)) = false →
      resolve_options (fun _ => Value.list []) (Value.dict []) [] [] "t" true =
        Except.ok [] →
      dget ([] : PyDict) (Key.str "topology.python.path") = Option.none →
      dget ([] : PyDict) (Key.str "topology.python.path") = Option.none →
      dget ([] : PyDict) (Key.str "topology.python.path") = Option.none →
      dget ([] : PyDict) (Key.str "topology.python.path") = Option.none) :=
  @resolve_virtualenv_keyerror_amended (fun _ => Value.list []) [] [] [] "t"
    true [] [] rfl

end Streamparse
